/-
Verification of the wallpaper library and manager of `lively_pi.py`
(repository bobster316/pilivelyv2).

The development shallowly embeds the two stateful components of the
program:
 * `WallpaperLibrary` — a JSON-persisted ordered list of wallpaper
   records (`load_library`, `save_library`, `add_wallpaper`,
   `_detect_type`);
 * `WallpaperManager` — a list of spawned child-process handles
   (`set_wallpaper`, `pause_all`, `resume_all`, `stop_all`).

JSON values are modelled by an inductive `Json` type; the textual
serialisation performed by `json.dump` / `json.load` is treated as a
faithful transport of such values (the program only ever produces
values in this fragment: strings, integers, booleans, arrays,
objects).  Since Python's dataclass stores whatever value a JSON
object supplied, the record fields `path`, `monitor_id`, `properties`
and `enabled` are modelled as arbitrary `Json` values, exactly as the
Python object would hold them; `wallpaper_type` is the enum, because
`WallpaperType(x)` raises on anything outside the enum.

External effects of the manager (spawning `mpv`, running `feh` /
`gsettings`, sending POSIX signals) are parameterised by an
environment that chooses the outcome of every external call,
including the exceptions it may raise; Python's `try/except` blocks
are mirrored by explicit handlers on `Except` values.
-/
import Mathlib

/-- JSON values, as produced/consumed by `json.dump` / `json.load` for
this program (the program never writes floats). Object member lists
keep insertion order, as Python dicts do. -/
inductive Json where
  | null
  | bool (b : Bool)
  | int (n : Int)
  | str (s : String)
  | arr (items : List Json)
  | obj (members : List (String × Json))

/-- Whether a JSON value is an object (a Python `dict`). -/
def Json.isObj : Json → Bool
  | .obj _ => true
  | _ => false

/-- The `WallpaperType` enum of `lively_pi.py` (lines 50–55). -/
inductive WallpaperType where
  | IMAGE
  | VIDEO
  | WEB
  | STREAM
deriving DecidableEq, Repr

/-- The `.value` string of each enum member. -/
def WallpaperType.value : WallpaperType → String
  | .IMAGE => "image"
  | .VIDEO => "video"
  | .WEB => "web"
  | .STREAM => "stream"

/-- The enum call `WallpaperType(x)` applied to a JSON value: succeeds exactly on the
four value strings, raises `ValueError` (here: `none`) otherwise. -/
def wallpaperTypeOfJson : Json → Option WallpaperType
  | .str "image" => some .IMAGE
  | .str "video" => some .VIDEO
  | .str "web" => some .WEB
  | .str "stream" => some .STREAM
  | _ => none

/-- The `WallpaperConfig` dataclass (lines 58–69).  Fields other than
`wallpaper_type` hold whatever value they were constructed with, as in
Python. -/
structure WallpaperConfig where
  path : Json
  wallpaper_type : WallpaperType
  monitor_id : Json
  properties : Json
  enabled : Json

/-- Dataclass `__post_init__` (lines 67–69): a `None` `properties` becomes `{}`. -/
def postInitProperties : Json → Json
  | .null => .obj []
  | p => p

/-- The dataclass constructor including `__post_init__`.  (Python's
defaults at call sites: `monitor_id = -1`, `properties = None`,
`enabled = True`.) -/
def WallpaperConfig.make (path : Json) (wallpaper_type : WallpaperType)
    (monitor_id : Json) (properties : Json) (enabled : Json) : WallpaperConfig :=
  { path := path
    wallpaper_type := wallpaper_type
    monitor_id := monitor_id
    properties := postInitProperties properties
    enabled := enabled }

/-- Python `dict` lookup `d[k]` on a member list built in order (a later
duplicate key overwrites an earlier one, as in `json.load`):
`none` models a raised `KeyError`. -/
def dictLookup (members : List (String × Json)) (key : String) : Option Json :=
  members.foldl (fun acc kv => if kv.1 = key then some kv.2 else acc) none

/-- Python `d.get(k, default)`. -/
def dictGetD (members : List (String × Json)) (key : String) (default : Json) : Json :=
  (dictLookup members key).getD default

/-- One iteration of the `load_library` loop body (lines 90–98): build a
`WallpaperConfig` from a stored item.  `none` models a raised
exception: `item['path']` / `item['type']` raise on a missing key or a
non-dict item, `WallpaperType(item['type'])` raises on a value outside
the enum; `item.get(...)` supplies the defaults `-1`, `{}`, `True`. -/
def decodeItem : Json → Option WallpaperConfig
  | .obj members => do
      let p ← dictLookup members "path"
      let tj ← dictLookup members "type"
      let t ← wallpaperTypeOfJson tj
      pure (WallpaperConfig.make p t
        (dictGetD members "monitor_id" (.int (-1)))
        (dictGetD members "properties" (.obj []))
        (dictGetD members "enabled" (.bool true)))
  | _ => none

/-- The `for item in data:` loop of `load_library`: items are decoded
and appended one by one; the first exception aborts the loop (it is
caught by the surrounding `try`, line 99), keeping the records appended
so far. -/
def loadItems (wallpapers : List WallpaperConfig) : List Json → List WallpaperConfig
  | [] => wallpapers
  | item :: rest =>
      match decodeItem item with
      | some config => loadItems (wallpapers ++ [config]) rest
      | none => wallpapers

/-- Iterating `for item in data:` over the parsed file value.  An array
yields its items.  Iterating any non-array JSON value appends no
record: an int/bool/null raises `TypeError` at the `for` itself, and a
string or object yields strings (characters / keys) on which
`item['path']` raises before any append; all such exceptions are caught
at line 99. -/
def jsonItems : Json → List Json
  | .arr items => items
  | _ => []

/-- Method `WallpaperLibrary.load_library` (lines 84–100), as a function of the
current in-memory list and the library file (`none` = file absent, in
which case nothing happens).  Note the loop APPENDS to
`self.wallpapers`; it never clears it. -/
def load_library (wallpapers : List WallpaperConfig) (file : Option Json) :
    List WallpaperConfig :=
  match file with
  | none => wallpapers
  | some data => loadItems wallpapers (jsonItems data)

/-- The serialised form of one record (lines 107–113). -/
def recordToJson (w : WallpaperConfig) : Json :=
  .obj [("path", w.path),
        ("type", .str w.wallpaper_type.value),
        ("monitor_id", w.monitor_id),
        ("properties", w.properties),
        ("enabled", w.enabled)]

/-- Method `WallpaperLibrary.save_library` (lines 102–118): the JSON value
written to the library file. -/
def save_library (wallpapers : List WallpaperConfig) : Json :=
  .arr (wallpapers.map recordToJson)

/-! ### `_detect_type` and its path arithmetic -/

/-- Split a character list on `'/'` (the components of a POSIX path,
empty components included, as `str.split('/')` yields them). -/
def splitSlash : List Char → List (List Char)
  | [] => [[]]
  | c :: rest =>
      if c = '/' then [] :: splitSlash rest
      else
        match splitSlash rest with
        | comp :: comps => (c :: comp) :: comps
        | [] => [[c]]

/-- Python `PurePosixPath(path).name`: the last path component, with empty and
`'.'` components dropped by the path parser. -/
def pathName (path : String) : String :=
  let comps := (splitSlash path.toList).filter (fun c => c ≠ [] ∧ c ≠ ['.'])
  String.mk (comps.getLast?.getD [])

/-- Python `path.startswith('http')`. -/
def startsWithHttp (path : String) : Bool :=
  List.isPrefixOf "http".toList path.toList

/-- Index of the last `'.'` in a character list, if any. -/
def lastDotIndex : List Char → Option Nat
  | [] => none
  | c :: rest =>
      match lastDotIndex rest with
      | some i => some (i + 1)
      | none => if c = '.' then some 0 else none

/-- Python `PurePosixPath(path).suffix`: `name[i:]` for `i` the last dot,
provided `0 < i < len(name) - 1`, else the empty string. -/
def pathSuffix (path : String) : String :=
  let name := pathName path
  match lastDotIndex name.toList with
  | some i =>
      if 0 < i ∧ i < name.length - 1 then String.mk (name.toList.drop i) else ""
  | none => ""

/-- ASCII lowering of a string, as `str.lower` acts on the ASCII
extensions compared against here. -/
def strLower (s : String) : String := String.mk (s.toList.map Char.toLower)

/-- Method `WallpaperLibrary._detect_type` (lines 131–141).  The extension
checks come first; only a path matching neither the image nor the video
extension list can be classified `WEB`. -/
def detect_type (path : String) : WallpaperType :=
  let ext := strLower (pathSuffix path)
  if ext == ".jpg" || ext == ".jpeg" || ext == ".png" || ext == ".bmp" || ext == ".gif" then
    .IMAGE
  else if ext == ".mp4" || ext == ".avi" || ext == ".mkv" || ext == ".webm" || ext == ".mov" then
    .VIDEO
  else if ext == ".html" || ext == ".htm" || startsWithHttp path then
    .WEB
  else
    .IMAGE

/-- Method `WallpaperLibrary.add_wallpaper` (lines 120–129): infer the type
when not given, construct with Python's defaults (`monitor_id = -1`,
`properties = None` — made `{}` by `__post_init__` —, `enabled =
True`), append, and save; returns the new list and the JSON value
written to the file. -/
def add_wallpaper (wallpapers : List WallpaperConfig) (path : String)
    (wallpaper_type : Option WallpaperType) : List WallpaperConfig × Json :=
  let t := match wallpaper_type with
    | none => detect_type path
    | some t => t
  let config := WallpaperConfig.make (.str path) t (.int (-1)) .null (.bool true)
  let wallpapers2 := wallpapers ++ [config]
  (wallpapers2, save_library wallpapers2)

/-! ### The wallpaper manager -/

/-- An OS process handle (`subprocess.Popen` object), identified by its
pid. -/
abbrev Proc := Nat

/-- Exceptions an external call may raise (all subclasses of
`Exception`); `fileNotFound` is `FileNotFoundError`, singled out
because `_set_video_wallpaper` handles it separately. -/
inductive PyExn where
  | fileNotFound
  | other
deriving DecidableEq, Repr

/-- POSIX signals / process-control calls the manager issues. -/
inductive Sig where
  | sigstop
  | sigcont
  | terminate
  | kill
deriving DecidableEq, Repr

/-- One attempted process-control call: which signal to which handle. -/
structure SigAction where
  target : Proc
  sig : Sig
deriving DecidableEq, Repr

/-- The result object of `subprocess.run(..., capture_output=True)`:
its return code, and the outcome of the later `result.stderr.decode()`
call (which may itself raise). -/
structure RunResult where
  returncode : Int
  stderrDecode : Except PyExn String

/-- Outcomes of every external call the manager makes, chosen by the
environment: which binaries exist, what each `subprocess.run` /
`subprocess.Popen` / `Path.exists` call does (including raising), and
whether `terminate`+`wait` completes for each tracked process in
`stop_all`. -/
structure Env where
  fehExists : Bool
  gsettingsExists : Bool
  runFeh : Except PyExn RunResult
  runGsettings : Except PyExn RunResult
  popenMpv : Except PyExn Proc
  webPathExists : Except PyExn Bool
  procOk : Proc → Bool

/-- The manager state: `self.active_processes` (line 148). -/
structure ManagerState where
  active_processes : List Proc

/-- Method `WallpaperManager.pause_all` (lines 244–252): send `SIGSTOP`
(signal 19) to every tracked process — each send's failure is swallowed
by `except: pass` — and leave the tracked list untouched.  Returns the
state and the attempted signal sends. -/
def pause_all (s : ManagerState) : ManagerState × List SigAction :=
  (s, s.active_processes.map (fun p => ⟨p, Sig.sigstop⟩))

/-- Method `WallpaperManager.resume_all` (lines 254–262): send `SIGCONT`
(signal 18) to every tracked process, failures swallowed, list
untouched. -/
def resume_all (s : ManagerState) : ManagerState × List SigAction :=
  (s, s.active_processes.map (fun p => ⟨p, Sig.sigcont⟩))

/-- Per-process body of the `stop_all` loop (lines 268–276):
`terminate()` then `wait(timeout=3)`; if either raises (`env.procOk p =
false`), fall back to `kill()`, whose own failure is also swallowed. -/
def stopOne (env : Env) (p : Proc) : List SigAction :=
  if env.procOk p then [⟨p, Sig.terminate⟩] else [⟨p, Sig.terminate⟩, ⟨p, Sig.kill⟩]

/-- Method `WallpaperManager.stop_all` (lines 264–278): guarded by
`if self.active_processes:` — on an empty list nothing at all happens;
otherwise every process is terminated (with the kill fallback) and the
list is cleared.  Every exception inside is caught, so the function is
total. -/
def stop_all (env : Env) (s : ManagerState) : ManagerState × List SigAction :=
  if s.active_processes.isEmpty then
    (s, [])
  else
    (⟨[]⟩, (s.active_processes.map (stopOne env)).flatten)

/-- Body of the `try` in `_set_image_wallpaper` (lines 171–192): run
`feh` if present, else `gsettings` if present, else just print; on a
non-zero return code the error branch calls `result.stderr.decode()`,
which may itself raise.  The manager state is never touched. -/
def setImageBody (env : Env) : Except PyExn Unit := do
  if env.fehExists then
    let r ← env.runFeh
    if r.returncode = 0 then pure () else do
      let _ ← r.stderrDecode
      pure ()
  else if env.gsettingsExists then
    let r ← env.runGsettings
    if r.returncode = 0 then pure () else do
      let _ ← r.stderrDecode
      pure ()
  else
    pure ()

/-- Method `WallpaperManager._set_image_wallpaper` (lines 169–195): the
whole body sits in `try: ... except Exception as e: print(...)`, so no
exception escapes. -/
def set_image_wallpaper (env : Env) : Except PyExn Unit :=
  match setImageBody env with
  | .ok _ => .ok ()
  | .error _ => .ok ()

/-- Body of the `try` in `_set_video_wallpaper` (lines 199–221): spawn
`mpv` and append the handle to `self.active_processes`. -/
def setVideoBody (env : Env) (s : ManagerState) : Except PyExn ManagerState := do
  let p ← env.popenMpv
  pure ⟨s.active_processes ++ [p]⟩

/-- Method `WallpaperManager._set_video_wallpaper` (lines 197–227):
`except FileNotFoundError` (mpv missing) and `except Exception` both
merely print, leaving the state as it was (no handle appended). -/
def set_video_wallpaper (env : Env) (s : ManagerState) : Except PyExn ManagerState :=
  match setVideoBody env s with
  | .ok s2 => .ok s2
  | .error .fileNotFound => .ok s
  | .error .other => .ok s

/-- Body of the `try` in `_set_web_wallpaper` (lines 236–242):
`path.startswith('http') or Path(path).exists()` — the short-circuit
`or` consults `Path.exists` (which may raise) only when the prefix test
fails; either way only text is printed. -/
def setWebBody (env : Env) (path : String) : Except PyExn Unit := do
  if startsWithHttp path then
    pure ()
  else
    let _ ← env.webPathExists
    pure ()

/-- Method `WallpaperManager._set_web_wallpaper` (lines 229–242): the
`try` catches every exception; no process is spawned, no state is
touched. -/
def set_web_wallpaper (env : Env) (path : String) : Except PyExn Unit :=
  match setWebBody env path with
  | .ok _ => .ok ()
  | .error _ => .ok ()

/-- Method `WallpaperManager.set_wallpaper` (lines 151–167), for a
record whose `path` is a string (every record made by `add_wallpaper`
is): first `stop_all`, then dispatch on the record's type (a `STREAM`
record matches no branch and falls through).  The result is the new
manager state, or the exception that propagated to the caller. -/
def set_wallpaper (env : Env) (wallpaper_type : WallpaperType) (path : String)
    (s : ManagerState) : Except PyExn ManagerState :=
  let s1 := (stop_all env s).1
  match wallpaper_type with
  | .IMAGE => do
      let _ ← set_image_wallpaper env
      pure s1
  | .VIDEO => set_video_wallpaper env s1
  | .WEB => do
      let _ ← set_web_wallpaper env path
      pure s1
  | .STREAM => pure s1

/-! ### Helper lemmas -/

/-- Lowercased extension of a path, the `ext` local of `_detect_type`. -/
def extOf (path : String) : String := strLower (pathSuffix path)

/-- Membership in the image extension list of `_detect_type`. -/
def isImageExt (ext : String) : Bool :=
  ext == ".jpg" || ext == ".jpeg" || ext == ".png" || ext == ".bmp" || ext == ".gif"

/-- Membership in the video extension list of `_detect_type`. -/
def isVideoExt (ext : String) : Bool :=
  ext == ".mp4" || ext == ".avi" || ext == ".mkv" || ext == ".webm" || ext == ".mov"

/-- The web condition of `_detect_type`: a web extension or an
`http`-prefixed path. -/
def isWebCase (ext : String) (path : String) : Bool :=
  ext == ".html" || ext == ".htm" || startsWithHttp path

/-- A decoded record round-trips through serialisation provided its
`properties` is an object (so that `__post_init__` leaves it alone). -/
theorem decode_recordToJson (w : WallpaperConfig) (h : w.properties.isObj = true) :
    decodeItem (recordToJson w) = some w := by
  obtain ⟨p, t, m, props, e⟩ := w
  cases props with
  | obj mem => cases t <;> rfl
  | null => simp [Json.isObj] at h
  | bool b => simp [Json.isObj] at h
  | int n => simp [Json.isObj] at h
  | str s => simp [Json.isObj] at h
  | arr xs => simp [Json.isObj] at h

/-- The loading loop only ever appends: splitting the accumulator off. -/
theorem loadItems_append (items : List Json) :
    ∀ ws extra : List WallpaperConfig,
      loadItems (ws ++ extra) items = ws ++ loadItems extra items := by
  induction items with
  | nil => intro ws extra; rfl
  | cons item rest ih =>
      intro ws extra
      cases h : decodeItem item with
      | none => simp [loadItems, h]
      | some c =>
          simp only [loadItems, h]
          rw [List.append_assoc]
          exact ih ws (extra ++ [c])

/-- Loading the serialisation of a record list appends that list,
provided every record's `properties` is an object. -/
theorem loadItems_map_record (rest : List WallpaperConfig)
    (h : ∀ w ∈ rest, w.properties.isObj = true) :
    ∀ ws : List WallpaperConfig, loadItems ws (rest.map recordToJson) = ws ++ rest := by
  induction rest with
  | nil => intro ws; simp [loadItems]
  | cons w rest ih =>
      intro ws
      simp only [List.map_cons, loadItems, decode_recordToJson w (h w (by simp))]
      rw [ih (fun x hx => h x (by simp [hx])) (ws ++ [w])]
      simp

/-! ### The claims -/

/-- C2 (amended): in `_detect_type`, the extension tests take
precedence over the `http` prefix test.  The lowercased suffix decides
image (`.jpg/.jpeg/.png/.bmp/.gif`) and video
(`.mp4/.avi/.mkv/.webm/.mov`) first; only a path matching neither list
is classified web when its extension is `.html`/`.htm` or the path
starts with `http`; everything else is image.  In particular an
`http`-prefixed path with an image or video extension is NOT web. -/
theorem detect_type_precedence (path : String) :
    (isImageExt (extOf path) = true → detect_type path = WallpaperType.IMAGE)
  ∧ (isImageExt (extOf path) = false → isVideoExt (extOf path) = true →
      detect_type path = WallpaperType.VIDEO)
  ∧ (isImageExt (extOf path) = false → isVideoExt (extOf path) = false →
      isWebCase (extOf path) path = true → detect_type path = WallpaperType.WEB)
  ∧ (isImageExt (extOf path) = false → isVideoExt (extOf path) = false →
      isWebCase (extOf path) path = false → detect_type path = WallpaperType.IMAGE) := by
  have e1 : detect_type path =
      (if isImageExt (extOf path) then WallpaperType.IMAGE
       else if isVideoExt (extOf path) then WallpaperType.VIDEO
       else if isWebCase (extOf path) path then WallpaperType.WEB
       else WallpaperType.IMAGE) := rfl
  refine ⟨fun h => ?_, fun h1 h2 => ?_, fun h1 h2 h3 => ?_, fun h1 h2 h3 => ?_⟩ <;>
    simp_all [e1]

/-- C2 witness: the four branches of `detect_type_precedence` at
concrete paths. -/
theorem detect_type_precedence_witness :
    detect_type "a.png" = WallpaperType.IMAGE
  ∧ detect_type "b.mp4" = WallpaperType.VIDEO
  ∧ detect_type "http://e/p" = WallpaperType.WEB
  ∧ detect_type "c.xyz" = WallpaperType.IMAGE :=
  ⟨(detect_type_precedence "a.png").1 (by decide),
   (detect_type_precedence "b.mp4").2.1 (by decide) (by decide),
   (detect_type_precedence "http://e/p").2.2.1 (by decide) (by decide) (by decide),
   (detect_type_precedence "c.xyz").2.2.2 (by decide) (by decide) (by decide)⟩

/-- C2 counterexample: `http://example.com/a.jpg` starts with `http`,
yet `_detect_type` classifies it image (its `.jpg` extension wins), so
"for every path that starts with `http` the inferred kind is web" is
false. -/
theorem detect_type_http_not_web :
    startsWithHttp "http://example.com/a.jpg" = true
  ∧ detect_type "http://example.com/a.jpg" = WallpaperType.IMAGE
  ∧ WallpaperType.IMAGE ≠ WallpaperType.WEB := by
  refine ⟨by decide, by decide, by decide⟩

/-- C8: `save_library` serialises the library as a JSON array with one
object per record, in library order, whose keys are exactly `path`,
`type`, `monitor_id`, `properties`, `enabled`, with `type` the enum's
string value. -/
theorem save_library_format (wallpapers : List WallpaperConfig) :
    save_library wallpapers = Json.arr (wallpapers.map (fun w =>
      Json.obj [("path", w.path),
                ("type", Json.str w.wallpaper_type.value),
                ("monitor_id", w.monitor_id),
                ("properties", w.properties),
                ("enabled", w.enabled)])) := rfl

/-- C10: `add_wallpaper` appends exactly one record at the end — with
`monitor_id = -1`, empty (never `None`, thanks to `__post_init__`)
`properties`, `enabled = True` — and leaves every previously stored
record unchanged in content and position. -/
theorem add_wallpaper_appends (wallpapers : List WallpaperConfig) (path : String)
    (wallpaper_type : Option WallpaperType) :
    ∃ t : WallpaperType,
      (add_wallpaper wallpapers path wallpaper_type).1 =
        wallpapers ++ [{ path := Json.str path, wallpaper_type := t,
                         monitor_id := Json.int (-1), properties := Json.obj [],
                         enabled := Json.bool true }] :=
  ⟨match wallpaper_type with
    | none => detect_type path
    | some t => t, rfl⟩

/-- C1: round-trip.  For every library whose records' `properties` are
JSON objects (the claim's "JSON-serializable properties maps"; every
record the program constructs satisfies this, `__post_init__` turning
`None` into `{}`), saving and then loading into a fresh (empty)
library reproduces the record list exactly: same length and same
`path`, `wallpaper_type`, `monitor_id`, `properties`, `enabled` at
every position. -/
theorem save_load_roundtrip (wallpapers : List WallpaperConfig)
    (h : ∀ w ∈ wallpapers, w.properties.isObj = true) :
    load_library [] (some (save_library wallpapers)) = wallpapers := by
  simp only [load_library, save_library, jsonItems]
  rw [loadItems_map_record wallpapers h []]
  simp

/-- A two-record library used to witness the round-trip theorem. -/
def sampleLibrary : List WallpaperConfig :=
  [{ path := Json.str "a.png", wallpaper_type := WallpaperType.IMAGE,
     monitor_id := Json.int (-1), properties := Json.obj [], enabled := Json.bool true },
   { path := Json.str "b.mp4", wallpaper_type := WallpaperType.VIDEO,
     monitor_id := Json.int 1, properties := Json.obj [("volume", Json.int 0)],
     enabled := Json.bool false }]

/-- C1 witness: the round-trip at a concrete two-record library. -/
theorem save_load_roundtrip_witness :
    load_library [] (some (save_library sampleLibrary)) = sampleLibrary :=
  save_load_roundtrip sampleLibrary (by decide)

/-- C4 (amended): `load_library` APPENDS the records decoded from the
file to the current in-memory list; only when that list is empty — as
it is at the one call site, `__init__` — does the result equal exactly
the file's decoded records. -/
theorem load_library_appends (wallpapers : List WallpaperConfig) (file : Option Json) :
    load_library wallpapers file = wallpapers ++ load_library [] file := by
  cases file with
  | none => simp [load_library]
  | some data =>
      simp only [load_library]
      have := loadItems_append (jsonItems data) wallpapers []
      simpa using this

/-- A record standing for pre-existing in-memory state in the C4
counterexample. -/
def leftoverRecord : WallpaperConfig :=
  { path := Json.str "old.png", wallpaper_type := WallpaperType.IMAGE,
    monitor_id := Json.int (-1), properties := Json.obj [], enabled := Json.bool true }

/-- C4 counterexample: reloading an EMPTY library file over a one-record
in-memory state leaves the old record in place, whereas the claim
demands the in-memory list become exactly the file's contents (here:
empty, with "no records from the previous in-memory state
surviving"). -/
theorem load_library_not_replace :
    load_library [leftoverRecord] (some (Json.arr [])) = [leftoverRecord]
  ∧ [leftoverRecord] ≠ ([] : List WallpaperConfig) :=
  ⟨rfl, by simp⟩

/-- C9: decoding one stored object.  If the object has a `path` key and
a `type` key holding one of the enum's value strings, `load_library`
accepts it, reading `monitor_id`, `properties`, `enabled` through
`.get` with defaults `-1`, `{}`, `True`; and the load of the
one-object file produces no record exactly when `path` is missing or
`type` is missing or outside the enum. -/
theorem load_item_defaults (members : List (String × Json)) :
    (∀ p tj t, dictLookup members "path" = some p →
      dictLookup members "type" = some tj → wallpaperTypeOfJson tj = some t →
      load_library [] (some (Json.arr [Json.obj members])) =
        [WallpaperConfig.make p t
          (dictGetD members "monitor_id" (Json.int (-1)))
          (dictGetD members "properties" (Json.obj []))
          (dictGetD members "enabled" (Json.bool true))])
  ∧ (load_library [] (some (Json.arr [Json.obj members])) = [] ↔
      (dictLookup members "path" = none ∨
        ((dictLookup members "type").bind wallpaperTypeOfJson) = none)) := by
  constructor
  · intro p tj t hp ht htt
    simp [load_library, jsonItems, loadItems, decodeItem, hp, ht, htt]
  · cases hp : dictLookup members "path" with
    | none => simp [load_library, jsonItems, loadItems, decodeItem, hp]
    | some p =>
        cases ht : dictLookup members "type" with
        | none => simp [load_library, jsonItems, loadItems, decodeItem, hp, ht]
        | some tj =>
            cases htt : wallpaperTypeOfJson tj with
            | none => simp [load_library, jsonItems, loadItems, decodeItem, hp, ht, htt]
            | some t => simp [load_library, jsonItems, loadItems, decodeItem, hp, ht, htt]

/-- C9 witness: a stored object carrying only `path` and `type` loads
as a record with the three defaulted fields. -/
theorem load_item_defaults_witness :
    load_library []
        (some (Json.arr [Json.obj [("path", Json.str "w.png"), ("type", Json.str "image")]])) =
      [WallpaperConfig.make (Json.str "w.png") WallpaperType.IMAGE
        (Json.int (-1)) (Json.obj []) (Json.bool true)] :=
  (load_item_defaults [("path", Json.str "w.png"), ("type", Json.str "image")]).1
    (Json.str "w.png") (Json.str "image") WallpaperType.IMAGE rfl rfl rfl

/-- C5: `stop_all` always leaves the tracked list empty; on an empty
tracked list it is a no-op — state untouched and no signal sent.  The
function is total (it returns an unboxed pair, not an `Except`):
every exception of `terminate`/`wait`/`kill` is caught in the source
(lines 269–276), whatever the per-process outcomes `env.procOk`. -/
theorem stop_all_clears (env : Env) (s : ManagerState) :
    (stop_all env s).1.active_processes = []
  ∧ (s.active_processes = [] → stop_all env s = (s, [])) := by
  obtain ⟨l⟩ := s
  cases l <;> simp [stop_all]

/-- C5 witness: `stop_all` on zero tracked processes, at a concrete
environment. -/
theorem stop_all_clears_witness :
    (stop_all ⟨true, true, .ok ⟨0, .ok ""⟩, .ok ⟨0, .ok ""⟩, .ok 1, .ok true, fun _ => true⟩
        ⟨[]⟩).1.active_processes = []
  ∧ stop_all ⟨true, true, .ok ⟨0, .ok ""⟩, .ok ⟨0, .ok ""⟩, .ok 1, .ok true, fun _ => true⟩
        ⟨[]⟩ = (⟨[]⟩, []) :=
  ⟨(stop_all_clears _ ⟨[]⟩).1, (stop_all_clears _ ⟨[]⟩).2 rfl⟩

/-- C6: `pause_all` and `resume_all` leave the tracked list unchanged —
they only attempt one signal send (`SIGSTOP` / `SIGCONT`) per tracked
process — and on an empty tracked list they send no signal at all.
Both are total: each send sits in `try: ... except: pass`. -/
theorem pause_resume_frame (s : ManagerState) :
    (pause_all s).1 = s ∧ (resume_all s).1 = s
  ∧ (s.active_processes = [] → (pause_all s).2 = [] ∧ (resume_all s).2 = []) := by
  refine ⟨rfl, rfl, fun h => ?_⟩
  simp [pause_all, resume_all, h]

/-- C6 witness: both calls at the empty manager state. -/
theorem pause_resume_frame_witness :
    (pause_all ⟨[]⟩).1 = ⟨[]⟩ ∧ (resume_all ⟨[]⟩).1 = ⟨[]⟩
  ∧ ((pause_all ⟨[]⟩).2 = [] ∧ (resume_all ⟨[]⟩).2 = []) :=
  ⟨(pause_resume_frame ⟨[]⟩).1, (pause_resume_frame ⟨[]⟩).2.1,
   (pause_resume_frame ⟨[]⟩).2.2 rfl⟩

/-- C3 (amended): `set_wallpaper` on a video record first clears every
previously tracked handle (`stop_all`); when the `mpv` spawn succeeds
and returns handle `p`, the tracked list afterwards is exactly `[p]` —
one handle, with none of the previously tracked ones in it.  (When the
spawn fails the list stays empty; see the counterexample.) -/
theorem set_video_tracks_one (env : Env) (path : String) (s : ManagerState) (p : Proc)
    (h : env.popenMpv = .ok p) :
    set_wallpaper env WallpaperType.VIDEO path s = .ok ⟨[p]⟩ := by
  obtain ⟨l⟩ := s
  cases l <;>
    simp [set_wallpaper, stop_all, set_video_wallpaper, setVideoBody, h]

/-- C3 witness: with two previously tracked handles and a successful
spawn returning pid 1, exactly `[1]` is tracked afterwards. -/
theorem set_video_tracks_one_witness :
    set_wallpaper ⟨true, true, .ok ⟨0, .ok ""⟩, .ok ⟨0, .ok ""⟩, .ok 1, .ok true, fun _ => true⟩
        WallpaperType.VIDEO "v.mp4" ⟨[3, 4]⟩ = .ok ⟨[1]⟩ :=
  set_video_tracks_one _ "v.mp4" ⟨[3, 4]⟩ 1 rfl

/-- The environment of the C3 counterexample: `mpv` is absent, so
`subprocess.Popen` raises `FileNotFoundError`. -/
def envMpvMissing : Env :=
  { fehExists := false, gsettingsExists := false,
    runFeh := .error .other, runGsettings := .error .other,
    popenMpv := .error .fileNotFound, webPathExists := .ok false,
    procOk := fun _ => true }

/-- C3 counterexample: with `mpv` missing, `set_wallpaper` on a video
record over a manager tracking pid 7 ends with an EMPTY tracked list —
not "exactly one handle" as the claim states for every manager state
and video record. -/
theorem set_video_zero_on_spawn_failure :
    set_wallpaper envMpvMissing WallpaperType.VIDEO "v.mp4" ⟨[7]⟩ = .ok ⟨[]⟩
  ∧ ([] : List Proc).length ≠ 1 :=
  ⟨rfl, by decide⟩

/-- The image branch swallows every exception of its body. -/
theorem set_image_wallpaper_ok (env : Env) : set_image_wallpaper env = Except.ok () := by
  cases h : setImageBody env <;> simp [set_image_wallpaper, h]

/-- The web branch swallows every exception of its body. -/
theorem set_web_wallpaper_ok (env : Env) (path : String) :
    set_web_wallpaper env path = Except.ok () := by
  cases h : setWebBody env path <;> simp [set_web_wallpaper, h]

/-- The video branch swallows every exception of its body. -/
theorem set_video_wallpaper_ok (env : Env) (s : ManagerState) :
    ∃ s2, set_video_wallpaper env s = Except.ok s2 := by
  cases h : setVideoBody env s with
  | ok s2 => exact ⟨s2, by simp [set_video_wallpaper, h]⟩
  | error e => cases e <;> exact ⟨s, by simp [set_video_wallpaper, h]⟩

/-- C7: `set_wallpaper` never propagates an exception, whatever the
environment makes of the external calls (missing `feh`/`gsettings`/
`mpv`, non-zero exit codes, failing `stderr.decode`, raising
`Path.exists`, spawn failure) and whatever the record's type and
(string) path: every failure inside the image, video and web branches
is caught by their `try/except` blocks, and the result is always
`.ok`. -/
theorem set_wallpaper_total (env : Env) (t : WallpaperType) (path : String)
    (s : ManagerState) :
    ∃ s2, set_wallpaper env t path s = Except.ok s2 := by
  cases t with
  | IMAGE =>
      exact ⟨(stop_all env s).1, by simp [set_wallpaper, set_image_wallpaper_ok]⟩
  | VIDEO =>
      obtain ⟨s2, h2⟩ := set_video_wallpaper_ok env (stop_all env s).1
      exact ⟨s2, by simp [set_wallpaper, h2]⟩
  | WEB =>
      exact ⟨(stop_all env s).1, by simp [set_wallpaper, set_web_wallpaper_ok]⟩
  | STREAM => exact ⟨(stop_all env s).1, rfl⟩
